import Mathlib

/-!
Shallow embedding of the BlazeSQL MCP adapter.

The embedded code:
- `queryBlazeSQL` — the Request Adapter (src blazesql.ts): builds a request,
  performs one fetch bounded by a 120 s abort signal, and normalizes every
  outcome into a tagged success/failure object.  A thrown JavaScript
  exception is modelled as `Except.error`; a returned value as `Except.ok`.
- `handle` — the Tool Facade (src index.ts, the McpServer version registering
  the tool with a zod raw shape): zod-validates the two raw
  arguments, calls the Adapter, and reshapes the result into a tool result
  with a single text content block and an error flag.

The remote endpoint, the fetch builtin and the body parser are modelled by an
explicit oracle `RemoteBehavior`: one constructor per observable behavior of
the awaited network call (a response with a status and a body that either
parses or fails to parse, a timeout/abort cancellation, or any other thrown
transport error).
-/

deriving instance DecidableEq for Except

namespace Blaze

/-- A scalar cell of the result table, per the BlazeSQL success body
`data_result: mapping column name to sequence of string | number | boolean | null`. -/
inductive Scalar where
  | str (s : String)
  | num (n : Int)
  | boolean (b : Bool)
  | null
deriving DecidableEq, Repr

/-- The `data_result` mapping of a success body: column name to cell sequence. -/
abbrev DataResult := List (String × List Scalar)

/-- A parsed JSON response body, restricted to the fields the program reads.
A field the remote did not send is `none` (JavaScript `undefined`); the
`success` field is its truthiness. -/
structure JsObject where
  success : Bool
  message : Option String
  query : Option String
  agent_response : Option String
  data_result : Option DataResult
  error : Option String
  error_code : Option Int
deriving DecidableEq, Repr

/-- The error object `queryBlazeSQL` constructs on every failure path:
`\x7b success: false, error: e, error_code: c \x7d`. -/
def mkFailure (e : String) (c : Int) : JsObject :=
  ⟨false, none, none, none, none, some e, some c⟩

/-- The body of an HTTP response: `response.json()` either yields a parsed
object or throws an Error carrying a parse-failure message. -/
inductive BodyKind where
  | json (j : JsObject)
  | unparseable (errMsg : String)
deriving DecidableEq, Repr

/-- Oracle for the awaited network call: a response (status plus body), a
timeout/abort cancellation (an exception named TimeoutError or AbortError),
or any other thrown transport error.  For `netError`, `isErrorInstance`
tells whether the thrown value is an `Error` instance carrying `msg` as its
message. -/
inductive RemoteBehavior where
  | response (status : Nat) (body : BodyKind)
  | timeout
  | netError (isErrorInstance : Bool) (msg : String)
deriving DecidableEq, Repr

/-- `response.ok`: status in the inclusive range 200 to 299. -/
def respOk (status : Nat) : Bool :=
  200 ≤ status && status ≤ 299

/-- JavaScript truthiness of an optional string field (`undefined` and the
empty string are falsy). -/
def jsStrFalsy : Option String → Bool
  | none => true
  | some s => s == ""

/-- JavaScript truthiness of an optional integer field (`undefined` and 0 are
falsy). -/
def jsIntFalsy : Option Int → Bool
  | none => true
  | some n => n == 0

/-- Rendering of an optional string in a template literal: `undefined`
prints as the word undefined. -/
def jsToString : Option String → String
  | none => "undefined"
  | some s => s

/-- `const timeoutMilliseconds = 120000; // 2 minutes` -/
def timeoutMilliseconds : Nat := 120000

/-- The message of the exception thrown when the api key argument is empty. -/
def apiKeyMissingMsg : String :=
  "BlazeSQL API key is missing. Ensure BLAZE_API_KEY is set in your environment."

/-- Fallback message when the parsed error body has a falsy `error` field. -/
def httpErrorMsg (status : Nat) : String :=
  "HTTP error! status: " ++ toString status

/-- Fallback message when the error body fails to parse. -/
def parseFailMsg (status : Nat) : String :=
  "HTTP error! status: " ++ toString status ++ ". Failed to parse error response."

/-- The timeout failure message, built from `timeoutMilliseconds / 1000`. -/
def timeoutMsg : String :=
  "Request timed out after " ++ toString (timeoutMilliseconds / 1000) ++
  " seconds. The query might be too complex or the API might be slow."

/-- Fallback message when the thrown transport error is not an Error instance. -/
def unknownErrMsg : String :=
  "An unknown error occurred during the API request."

/-- The Request Adapter `queryBlazeSQL(dbId, naturalLanguageRequest, apiKey)`.

Mirrors the source branch for branch:
- `if (!apiKey) throw new Error(...)` — empty key throws before any fetch;
- on a response with `!response.ok`: parse the error body; a parsed body
  yields `mkFailure (errorData.error || httpErrorMsg) (errorData.error_code
  || status)` with JavaScript falsy fallbacks; an unparseable body is caught
  by the inner catch and yields `mkFailure (parseFailMsg status) status`;
- on an ok response: return the parsed body as-is; a parse failure there
  propagates to the outer catch as an Error instance, hence
  `mkFailure parseErrMsg 500`;
- a TimeoutError/AbortError yields `mkFailure timeoutMsg 504`;
- any other thrown transport error yields code 500 with the message of the
  Error instance, or the generic fallback when it is not one. -/
def queryBlazeSQL (dbId naturalLanguageRequest apiKey : String)
    (remote : RemoteBehavior) : Except String JsObject :=
  if apiKey = "" then
    Except.error apiKeyMissingMsg
  else
    match remote with
    | RemoteBehavior.response status body =>
        if respOk status then
          match body with
          | BodyKind.json j => Except.ok j
          | BodyKind.unparseable e => Except.ok (mkFailure e 500)
        else
          match body with
          | BodyKind.json j =>
              Except.ok (mkFailure
                (if jsStrFalsy j.error then httpErrorMsg status else jsToString j.error)
                (if jsIntFalsy j.error_code then (status : Int) else j.error_code.getD 0))
          | BodyKind.unparseable _ =>
              Except.ok (mkFailure (parseFailMsg status) (status : Int))
    | RemoteBehavior.timeout =>
        Except.ok (mkFailure timeoutMsg 504)
    | RemoteBehavior.netError isErrorInstance msg =>
        Except.ok (mkFailure (if isErrorInstance then msg else unknownErrMsg) 500)

/-- A raw tool-call argument value, as granular as zod validation needs:
a string, any non-string value, or absent (`undefined`). -/
inductive JsValue where
  | str (s : String)
  | nonString
  | undef
deriving DecidableEq, Repr

/-- The raw argument object of a `blazesql_query` tool call. -/
structure RawArgs where
  db_id : JsValue
  natural_language_request : JsValue
deriving DecidableEq, Repr

/-- `z.string()`: accepts exactly string values (the empty string included),
rejects missing and non-string values. -/
def zodString : JsValue → Option String
  | JsValue.str s => some s
  | JsValue.nonString => none
  | JsValue.undef => none

/-- Validation of the raw shape `\x7b db_id: z.string(),
natural_language_request: z.string() \x7d` performed before the handler runs:
both fields must be strings, otherwise the call fails with a local
validation error and the handler is never invoked. -/
def zodParse (args : RawArgs) : Option (String × String) :=
  match zodString args.db_id, zodString args.natural_language_request with
  | some d, some q => some (d, q)
  | _, _ => none

/-- Serialization of one scalar cell, modelling the JSON.stringify builtin
on string, number, boolean and null values (string escaping elided). -/
def scalarToJson : Scalar → String
  | Scalar.str s => "\"" ++ s ++ "\""
  | Scalar.num n => toString n
  | Scalar.boolean b => if b then "true" else "false"
  | Scalar.null => "null"

/-- Serialization of one column of the result table at indent level one,
modelling JSON.stringify with a two-space indent. -/
def columnToJson : String × List Scalar → String
  | (name, []) => "  \"" ++ name ++ "\": []"
  | (name, v :: vs) =>
      "  \"" ++ name ++ "\": [\n" ++
      String.intercalate ",\n" ((v :: vs).map (fun c => "    " ++ scalarToJson c)) ++
      "\n  ]"

/-- `JSON.stringify(dataResult, null, 2)`, modelling the builtin pretty
printer on the object-of-arrays shape of `data_result` (an empty object
prints as \x7b\x7d). -/
def stringifyDataResult : DataResult → String
  | [] => "\x7b\x7d"
  | c :: cs =>
      "\x7b\n" ++ String.intercalate ",\n" ((c :: cs).map columnToJson) ++ "\n\x7d"

/-- The formatted output text the handler builds on a success result:
three labeled sections in fixed order — agent response, generated SQL in a
sql code fence, data result in a json code fence.  `result.query ?? fallback`
and `result.data_result ?? \x7b\x7d` are nullish coalescing, modelled by
`Option.getD`. -/
def formatSuccess (result : JsObject) : String :=
  "**Agent Response:**\n" ++ jsToString result.agent_response ++
  "\n\n**Generated SQL:**\n```sql\n" ++ result.query.getD "-- No SQL query returned" ++
  "\n```\n\n**Data Result (JSON):**\n```json\n" ++
  stringifyDataResult (result.data_result.getD []) ++ "\n```\n"

/-- One content block of a tool result; the handler only ever emits blocks
with `type = "text"`. -/
structure ContentBlock where
  type : String
  text : String
deriving DecidableEq, Repr

/-- The value a tool-call handler returns to the protocol layer: a content
list plus the error flag (absent in the success branch, modelled as false). -/
structure ToolResult where
  content : List ContentBlock
  isError : Bool
deriving DecidableEq, Repr

/-- Observable outcome of one `blazesql_query` call at the facade boundary:
either the zod layer rejected the raw arguments before the handler ran, or
the handler ran and produced a tool result. -/
inductive HandleOutcome where
  | validationError
  | toolResult (r : ToolResult)
deriving DecidableEq, Repr

/-- The Tool Facade: the `blazesql_query` registration of the McpServer
version of index.ts.  zod validates the raw arguments; on success the
handler runs, always calling `queryBlazeSQL` with the process api key, and
reshapes the tagged result: a success result becomes one text block built by
`formatSuccess` with no error flag, a failure result becomes one text block
`BlazeSQL API Error: <error>` flagged as an error.  An exception thrown by
`queryBlazeSQL` would propagate out of the handler (`Except.error`). -/
def handle (args : RawArgs) (apiKey : String) (remote : RemoteBehavior) :
    Except String HandleOutcome :=
  match zodParse args with
  | none => Except.ok HandleOutcome.validationError
  | some (db_id, natural_language_request) =>
      match queryBlazeSQL db_id natural_language_request apiKey remote with
      | Except.error e => Except.error e
      | Except.ok result =>
          if result.success then
            Except.ok (HandleOutcome.toolResult
              ⟨[⟨"text", formatSuccess result⟩], false⟩)
          else
            Except.ok (HandleOutcome.toolResult
              ⟨[⟨"text", "BlazeSQL API Error: " ++ jsToString result.error⟩], true⟩)

/-- Projection: the `error_code` field of a returned outcome (none when the
call threw). -/
def outcomeErrCode : Except String JsObject → Option Int
  | Except.ok r => r.error_code
  | Except.error _ => none

/-- Projection: the `error` field of a returned outcome (none when the call
threw). -/
def outcomeErrMsg : Except String JsObject → Option String
  | Except.ok r => r.error
  | Except.error _ => none

/-- Claim C1, counterexample: with an empty credential and concrete
arguments, `queryBlazeSQL` throws (modelled as `Except.error`) the
api-key-missing message; it does not return the claimed value
`Failure(message "credential missing", code 500)`. -/
theorem c1_empty_credential_counterexample :
    queryBlazeSQL "db" "question" "" RemoteBehavior.timeout =
      Except.error apiKeyMissingMsg ∧
    queryBlazeSQL "db" "question" "" RemoteBehavior.timeout ≠
      Except.ok (mkFailure "credential missing" 500) := by
  exact ⟨rfl, by decide⟩

/-- Claim C1, amended: for every databaseId, question and remote behavior,
if the credential argument is empty, `queryBlazeSQL` throws an Error whose
message states the API key is missing, without attempting any network I/O
(the outcome is the same for every remote behavior); it does not return a
`Failure` value. -/
theorem c1_execute_throws_on_empty_credential
    (dbId question apiKey : String) (remote remote2 : RemoteBehavior)
    (h : apiKey = "") :
    queryBlazeSQL dbId question apiKey remote = Except.error apiKeyMissingMsg ∧
    queryBlazeSQL dbId question apiKey remote =
      queryBlazeSQL dbId question apiKey remote2 := by
  subst h
  exact ⟨by simp [queryBlazeSQL], by simp [queryBlazeSQL]⟩

/-- Witness for the amended C1 at concrete inputs. -/
theorem c1_execute_throws_on_empty_credential_witness :
    ("" : String) = "" ∧
    (queryBlazeSQL "db" "question" "" RemoteBehavior.timeout =
       Except.error apiKeyMissingMsg ∧
     queryBlazeSQL "db" "question" "" RemoteBehavior.timeout =
       queryBlazeSQL "db" "question" "" (RemoteBehavior.netError true "x")) :=
  ⟨rfl, c1_execute_throws_on_empty_credential "db" "question" ""
    RemoteBehavior.timeout (RemoteBehavior.netError true "x") rfl⟩

/-- Claim C2, counterexample: an empty-string `db_id` passes zod validation
(`z.string()` accepts the empty string), so the handler runs and the Adapter
is invoked: the outcome is not the local validation error, and it depends on
the remote behavior, i.e. a network call is issued. -/
theorem c2_empty_string_reaches_adapter_counterexample :
    handle ⟨JsValue.str "", JsValue.str "list users"⟩ "key"
        RemoteBehavior.timeout ≠
      Except.ok HandleOutcome.validationError ∧
    handle ⟨JsValue.str "", JsValue.str "list users"⟩ "key"
        RemoteBehavior.timeout ≠
      handle ⟨JsValue.str "", JsValue.str "list users"⟩ "key"
        (RemoteBehavior.netError true "connection refused") := by
  decide

/-- Claim C2, amended: if `db_id` or `natural_language_request` is missing
or not a string, the zod layer rejects the call locally: `handle` returns
the validation-error outcome without invoking the Adapter (the outcome is
the same for every remote behavior).  An empty string, however, passes
`z.string()` and does reach the Adapter. -/
theorem c2_invalid_args_rejected_locally
    (args : RawArgs) (apiKey : String) (remote remote2 : RemoteBehavior)
    (h : zodString args.db_id = none ∨
         zodString args.natural_language_request = none) :
    handle args apiKey remote = Except.ok HandleOutcome.validationError ∧
    handle args apiKey remote = handle args apiKey remote2 := by
  have hz : zodParse args = none := by
    unfold zodParse
    rcases h with h | h
    · rw [h]
    · rw [h]; cases zodString args.db_id <;> rfl
  exact ⟨by simp [handle, hz], by simp [handle, hz]⟩

/-- Witness for the amended C2 at concrete inputs (a missing db_id). -/
theorem c2_invalid_args_rejected_locally_witness :
    (zodString (RawArgs.mk JsValue.undef (JsValue.str "q")).db_id = none ∨
     zodString (RawArgs.mk JsValue.undef
       (JsValue.str "q")).natural_language_request = none) ∧
    (handle ⟨JsValue.undef, JsValue.str "q"⟩ "key" RemoteBehavior.timeout =
       Except.ok HandleOutcome.validationError ∧
     handle ⟨JsValue.undef, JsValue.str "q"⟩ "key" RemoteBehavior.timeout =
       handle ⟨JsValue.undef, JsValue.str "q"⟩ "key"
         (RemoteBehavior.netError true "x")) :=
  ⟨Or.inl rfl,
   c2_invalid_args_rejected_locally ⟨JsValue.undef, JsValue.str "q"⟩ "key"
     RemoteBehavior.timeout (RemoteBehavior.netError true "x") (Or.inl rfl)⟩

/-- Claim C3: when the awaited network call raises a timeout/abort
cancellation, `queryBlazeSQL` returns the Failure with code 504 whose
message states the request timed out after its duration of
`timeoutMilliseconds / 1000` seconds, and this outcome differs from every
generic code-500 transport-failure outcome. -/
theorem c3_timeout_yields_504
    (dbId question apiKey : String) (h : apiKey ≠ "")
    (isErrorInstance : Bool) (msg : String) :
    queryBlazeSQL dbId question apiKey RemoteBehavior.timeout =
      Except.ok (mkFailure timeoutMsg 504) ∧
    (∃ pre post, timeoutMsg =
      pre ++ ("timed out after " ++ toString (timeoutMilliseconds / 1000) ++
        " seconds") ++ post) ∧
    queryBlazeSQL dbId question apiKey RemoteBehavior.timeout ≠
      queryBlazeSQL dbId question apiKey
        (RemoteBehavior.netError isErrorInstance msg) := by
  refine ⟨by simp [queryBlazeSQL, h], ⟨"Request ",
    ". The query might be too complex or the API might be slow.",
    by decide⟩, ?_⟩
  simp [queryBlazeSQL, h, mkFailure]

/-- Witness for C3 at concrete inputs. -/
theorem c3_timeout_yields_504_witness :
    ("key" : String) ≠ "" ∧
    (queryBlazeSQL "db" "q" "key" RemoteBehavior.timeout =
       Except.ok (mkFailure timeoutMsg 504) ∧
     (∃ pre post, timeoutMsg =
       pre ++ ("timed out after " ++ toString (timeoutMilliseconds / 1000) ++
         " seconds") ++ post) ∧
     queryBlazeSQL "db" "q" "key" RemoteBehavior.timeout ≠
       queryBlazeSQL "db" "q" "key" (RemoteBehavior.netError true "boom")) :=
  ⟨by decide, c3_timeout_yields_504 "db" "q" "key" (by decide) true "boom"⟩

/-- Claim C4, counterexample: a body that parses as an error object with the
empty string as its `error` field (and error_code 403) does not yield
`Failure(message "", code 403)` as the claim, read for every message m,
demands: the falsy message is replaced by the generic HTTP fallback. -/
theorem c4_falsy_error_field_counterexample :
    queryBlazeSQL "db" "q" "key"
        (RemoteBehavior.response 403
          (BodyKind.json ⟨false, none, none, none, none, some "", some 403⟩)) =
      Except.ok (mkFailure (httpErrorMsg 403) 403) ∧
    queryBlazeSQL "db" "q" "key"
        (RemoteBehavior.response 403
          (BodyKind.json ⟨false, none, none, none, none, some "", some 403⟩)) ≠
      Except.ok (mkFailure "" 403) := by
  decide

/-- Claim C4, amended: for every HTTP status at least 400 and a body parsed
as an error object whose `error` field is a non-empty string m and whose
`error_code` field is a nonzero integer c, the result is
`Failure(message m, code c)`. -/
theorem c4_parseable_error_body
    (dbId question apiKey : String) (h : apiKey ≠ "")
    (status : Nat) (hs : 400 ≤ status) (j : JsObject) (m : String) (c : Int)
    (hm : j.error = some m) (hm2 : m ≠ "")
    (hc : j.error_code = some c) (hc2 : c ≠ 0) :
    queryBlazeSQL dbId question apiKey
        (RemoteBehavior.response status (BodyKind.json j)) =
      Except.ok (mkFailure m c) := by
  have hok : respOk status = false := by
    simp only [respOk, Bool.and_eq_false_iff, decide_eq_false_iff_not]
    omega
  simp [queryBlazeSQL, h, hok, jsStrFalsy, jsIntFalsy, hm, hm2, hc, hc2,
    jsToString]

/-- Witness for the amended C4 at concrete inputs. -/
theorem c4_parseable_error_body_witness :
    ("key" : String) ≠ "" ∧ 400 ≤ 403 ∧ ("X" : String) ≠ "" ∧
    (403 : Int) ≠ 0 ∧
    queryBlazeSQL "db" "q" "key"
        (RemoteBehavior.response 403
          (BodyKind.json ⟨false, none, none, none, none, some "X", some 403⟩)) =
      Except.ok (mkFailure "X" 403) :=
  ⟨by decide, by decide, by decide, by decide,
   c4_parseable_error_body "db" "q" "key" (by decide) 403 (by decide)
     ⟨false, none, none, none, none, some "X", some 403⟩ "X" 403
     rfl (by decide) rfl (by decide)⟩

/-- Claim C5: for every non-success HTTP status and a body that fails to
parse, the result is the Failure whose code is the status and whose
fallback message mentions the status. -/
theorem c5_unparseable_error_body
    (dbId question apiKey : String) (h : apiKey ≠ "")
    (status : Nat) (hs : respOk status = false) (parseErr : String) :
    queryBlazeSQL dbId question apiKey
        (RemoteBehavior.response status (BodyKind.unparseable parseErr)) =
      Except.ok (mkFailure (parseFailMsg status) (status : Int)) ∧
    ∃ pre post, parseFailMsg status = pre ++ toString status ++ post :=
  ⟨by simp [queryBlazeSQL, h, hs],
   ⟨"HTTP error! status: ", ". Failed to parse error response.", rfl⟩⟩

/-- Witness for C5 at concrete inputs (status 500). -/
theorem c5_unparseable_error_body_witness :
    ("key" : String) ≠ "" ∧ respOk 500 = false ∧
    (queryBlazeSQL "db" "q" "key"
        (RemoteBehavior.response 500 (BodyKind.unparseable "Unexpected token")) =
       Except.ok (mkFailure (parseFailMsg 500) (500 : Int)) ∧
     ∃ pre post, parseFailMsg 500 = pre ++ toString 500 ++ post) :=
  ⟨by decide, by decide,
   c5_unparseable_error_body "db" "q" "key" (by decide) 500 (by decide)
     "Unexpected token"⟩

/-- Claim C6: for every valid input pair (both arguments non-empty strings)
and every ok response whose parsed body has a truthy `success` field, the
handler returns a non-error result made of one text block holding three
labeled sections in fixed order: the agent response, the generated query in
a sql code fence, and the data result serialized as indented structured
text in a json code fence. -/
theorem c6_success_formatting (db q apiKey : String)
    (hdb : db ≠ "") (hq : q ≠ "") (h : apiKey ≠ "")
    (status : Nat) (hs : respOk status = true) (j : JsObject)
    (hj : j.success = true) :
    handle ⟨JsValue.str db, JsValue.str q⟩ apiKey
        (RemoteBehavior.response status (BodyKind.json j)) =
      Except.ok (HandleOutcome.toolResult
        ⟨[⟨"text",
           "**Agent Response:**\n" ++ jsToString j.agent_response ++
           "\n\n**Generated SQL:**\n```sql\n" ++
           j.query.getD "-- No SQL query returned" ++
           "\n```\n\n**Data Result (JSON):**\n```json\n" ++
           stringifyDataResult (j.data_result.getD []) ++ "\n```\n"⟩],
         false⟩) := by
  simp [handle, zodParse, zodString, queryBlazeSQL, h, hs, hj, formatSuccess]

/-- Witness for C6 at concrete inputs: one column, one row. -/
theorem c6_success_formatting_witness :
    ("db1" : String) ≠ "" ∧ ("list users" : String) ≠ "" ∧
    ("key" : String) ≠ "" ∧ respOk 200 = true ∧
    handle ⟨JsValue.str "db1", JsValue.str "list users"⟩ "key"
        (RemoteBehavior.response 200 (BodyKind.json
          ⟨true, some "done", some "SELECT 1", some "two users",
           some [("n", [Scalar.num 1])], none, none⟩)) =
      Except.ok (HandleOutcome.toolResult
        ⟨[⟨"text",
           "**Agent Response:**\ntwo users\n\n**Generated SQL:**\n```sql\nSELECT 1\n```\n\n**Data Result (JSON):**\n```json\n\x7b\n  \"n\": [\n    1\n  ]\n\x7d\n```\n"⟩],
         false⟩) :=
  ⟨by decide, by decide, by decide, by decide,
   c6_success_formatting "db1" "list users" "key" (by decide) (by decide)
     (by decide) 200 rfl
     ⟨true, some "done", some "SELECT 1", some "two users",
      some [("n", [Scalar.num 1])], none, none⟩ rfl⟩

/-- Claim C7: for every valid input pair, whenever the Adapter returns a
failure result (its `success` field false), the handler returns — it does
not throw — a result flagged as an error whose single text block states the
failure message. -/
theorem c7_failure_flagged_not_thrown (db q apiKey : String)
    (hdb : db ≠ "") (hq : q ≠ "") (h : apiKey ≠ "")
    (remote : RemoteBehavior) (r : JsObject)
    (hr : queryBlazeSQL db q apiKey remote = Except.ok r)
    (hf : r.success = false) :
    handle ⟨JsValue.str db, JsValue.str q⟩ apiKey remote =
      Except.ok (HandleOutcome.toolResult
        ⟨[⟨"text", "BlazeSQL API Error: " ++ jsToString r.error⟩], true⟩) := by
  simp [handle, zodParse, zodString, hr, hf]

/-- Witness for C7 at concrete inputs (a timeout failure). -/
theorem c7_failure_flagged_not_thrown_witness :
    ("db1" : String) ≠ "" ∧ ("list users" : String) ≠ "" ∧
    ("key" : String) ≠ "" ∧
    queryBlazeSQL "db1" "list users" "key" RemoteBehavior.timeout =
      Except.ok (mkFailure timeoutMsg 504) ∧
    (mkFailure timeoutMsg 504).success = false ∧
    handle ⟨JsValue.str "db1", JsValue.str "list users"⟩ "key"
        RemoteBehavior.timeout =
      Except.ok (HandleOutcome.toolResult
        ⟨[⟨"text",
           "BlazeSQL API Error: " ++ jsToString (mkFailure timeoutMsg 504).error⟩],
         true⟩) :=
  ⟨by decide, by decide, by decide, by decide, rfl,
   c7_failure_flagged_not_thrown "db1" "list users" "key" (by decide)
     (by decide) (by decide) RemoteBehavior.timeout (mkFailure timeoutMsg 504)
     (by decide) rfl⟩

/-- Claim C8: `queryBlazeSQL` is a pure function of its arguments — it reads
and writes no shared mutable state and caches nothing — so two invocations
with identical databaseId, question and credential against the same
deterministic remote behavior yield equal outcomes. -/
theorem c8_execute_deterministic
    (db1 q1 k1 : String) (rem1 : RemoteBehavior)
    (db2 q2 k2 : String) (rem2 : RemoteBehavior)
    (hdb : db1 = db2) (hq : q1 = q2) (hk : k1 = k2) (hrem : rem1 = rem2) :
    queryBlazeSQL db1 q1 k1 rem1 = queryBlazeSQL db2 q2 k2 rem2 := by
  subst hdb; subst hq; subst hk; subst hrem; rfl

/-- Witness for C8 at concrete inputs. -/
theorem c8_execute_deterministic_witness :
    ("db" : String) = "db" ∧ ("q" : String) = "q" ∧
    ("key" : String) = "key" ∧
    (RemoteBehavior.timeout = RemoteBehavior.timeout) ∧
    queryBlazeSQL "db" "q" "key" RemoteBehavior.timeout =
      queryBlazeSQL "db" "q" "key" RemoteBehavior.timeout :=
  ⟨rfl, rfl, rfl, rfl,
   c8_execute_deterministic "db" "q" "key" RemoteBehavior.timeout
     "db" "q" "key" RemoteBehavior.timeout rfl rfl rfl rfl⟩

/-- Claim C9: for every non-empty credential and every behavior of the
remote call, `queryBlazeSQL` returns a value and never propagates an
exception: the throwing branch is unreachable once the credential check
passes. -/
theorem c9_execute_total_no_throw (db q apiKey : String) (h : apiKey ≠ "")
    (remote : RemoteBehavior) :
    ∃ r : JsObject, queryBlazeSQL db q apiKey remote = Except.ok r := by
  unfold queryBlazeSQL
  rw [if_neg h]
  cases remote with
  | timeout => exact ⟨_, rfl⟩
  | netError isErrorInstance msg => exact ⟨_, rfl⟩
  | response status body =>
      cases hok : respOk status with
      | true =>
          cases body with
          | json j => exact ⟨j, by simp [hok]⟩
          | unparseable e => exact ⟨mkFailure e 500, by simp [hok]⟩
      | false =>
          cases body with
          | json j =>
              exact ⟨mkFailure
                (if jsStrFalsy j.error then httpErrorMsg status
                 else jsToString j.error)
                (if jsIntFalsy j.error_code then (status : Int)
                 else j.error_code.getD 0), by simp [hok]⟩
          | unparseable e =>
              exact ⟨mkFailure (parseFailMsg status) (status : Int),
                by simp [hok]⟩

/-- Witness for C9 at concrete inputs. -/
theorem c9_execute_total_no_throw_witness :
    ("key" : String) ≠ "" ∧
    ∃ r : JsObject,
      queryBlazeSQL "db" "q" "key" RemoteBehavior.timeout = Except.ok r :=
  ⟨by decide,
   c9_execute_total_no_throw "db" "q" "key" (by decide) RemoteBehavior.timeout⟩

/-- Claim C10: on a non-success response whose body parses as an error
object, a parsed `error_code` of 0 is replaced by the HTTP status, and a
parsed `error` equal to the empty string is replaced by the generic
HTTP-error fallback message. -/
theorem c10_falsy_remote_fields_replaced :
    (∀ (db q k : String) (status : Nat) (j : JsObject),
        k ≠ "" → respOk status = false → j.error_code = some 0 →
        outcomeErrCode (queryBlazeSQL db q k
            (RemoteBehavior.response status (BodyKind.json j))) =
          some (status : Int)) ∧
    (∀ (db q k : String) (status : Nat) (j : JsObject),
        k ≠ "" → respOk status = false → j.error = some "" →
        outcomeErrMsg (queryBlazeSQL db q k
            (RemoteBehavior.response status (BodyKind.json j))) =
          some (httpErrorMsg status)) := by
  constructor
  · intro db q k status j hk hok hc
    simp [queryBlazeSQL, hk, hok, outcomeErrCode, mkFailure, jsIntFalsy, hc]
  · intro db q k status j hk hok he
    simp [queryBlazeSQL, hk, hok, outcomeErrMsg, mkFailure, jsStrFalsy, he]

/-- Witness for C10 at concrete inputs (status 500; error_code 0 in the
first conjunct, empty error message in the second). -/
theorem c10_falsy_remote_fields_replaced_witness :
    outcomeErrCode (queryBlazeSQL "db" "q" "key"
        (RemoteBehavior.response 500 (BodyKind.json
          ⟨false, none, none, none, none, some "boom", some 0⟩))) =
      some (500 : Int) ∧
    outcomeErrMsg (queryBlazeSQL "db" "q" "key"
        (RemoteBehavior.response 500 (BodyKind.json
          ⟨false, none, none, none, none, some "", some 7⟩))) =
      some (httpErrorMsg 500) :=
  ⟨c10_falsy_remote_fields_replaced.1 "db" "q" "key" 500
     ⟨false, none, none, none, none, some "boom", some 0⟩
     (by decide) (by decide) rfl,
   c10_falsy_remote_fields_replaced.2 "db" "q" "key" 500
     ⟨false, none, none, none, none, some "", some 7⟩
     (by decide) (by decide) rfl⟩

end Blaze
